import Mathlib

/-!
Shallow embedding of `src/recommendations/src/recommendations-service/
experimentation/experiment_mab.py` (class `MultiArmedBanditExperiment`):
Thompson-sampling selection of an experiment variation, exposure bookkeeping,
item stamping and telemetry emission.

External collaborators (numpy's Beta sampler, the variation resolvers, the
tracker, the DynamoDB telemetry table, the clock) are passed in as explicit
oracle functions.  Python dictionaries are embedded as association lists with
first-key-wins lookup.  Exceptions are embedded as `Except` results, and the
side effects of one `get_items` call are recorded in an explicit trace.
-/

namespace ExperimentMab

/-- Modelled from the spec: `_create_correlation_id` lives in the
`BuiltInExperiment` base class, which is not among the sources at hand.
Spec 4.3: a deterministic identifier derived from `(user_id, variation_index,
rank)`, distinguishable from any other item of the response; embedded as the
tuple itself, treated as an atom by the rest of the core. -/
structure CorrelationId where
  user_id : String
  variation_index : Nat
  result_rank : Nat
deriving Repr, DecidableEq

/-- Modelled from the spec (4.3): build the correlation id from the
`(user_id, variation_index, rank)` tuple. -/
def createCorrelationId (user_id : String) (variation_index : Nat) (rank : Nat) :
    CorrelationId :=
  { user_id := user_id, variation_index := variation_index, result_rank := rank }

/-- The `item_experiment` dict built at lines 60-68 of `experiment_mab.py`. -/
structure ItemExperimentStamp where
  id : String
  feature : String
  name : String
  type : String
  variationIndex : Nat
  resultRank : Nat
  correlationId : CorrelationId
deriving Repr, DecidableEq

/-- Values stored in an item dictionary: resolver-provided payloads plus the
experiment stamp the core injects under the key `"experiment"`. -/
inductive PyVal where
  | str : String → PyVal
  | int : Int → PyVal
  | stamp : ItemExperimentStamp → PyVal
deriving Repr, DecidableEq

/-- An item returned by a resolver: a mutable dict, embedded as an
association list. -/
abbrev Item := List (String × PyVal)

/-- `d.get(k)` on a Python dict, embedded over an association list. -/
def pyDictGet {α : Type} : List (String × α) → String → Option α
  | [], _ => none
  | (k', v') :: rest, k => if k' = k then some v' else pyDictGet rest k

/-- `d[k] = v` / `d.update({k: v})` on a Python dict: replace the value in
place when the key is present, append it otherwise. -/
def pyDictSet {α : Type} : List (String × α) → String → α → List (String × α)
  | [], k, v => [(k, v)]
  | (k', v') :: rest, k, v =>
    if k' = k then (k, v) :: rest else (k', v') :: pyDictSet rest k v

/-- `int(config.get(key, 0))` (lines 105-106): read a count from a variation
config, absent key defaulting to 0.  Config values are already embedded as
integers, so the `int(...)` coercion is the identity. -/
def configGetInt (config : List (String × Int)) (key : String) : Int :=
  (pyDictGet config key).getD 0

/-- A variation: its `config` mapping (holding `exposures`/`conversions`
counts among arbitrary keys).  Its resolver is passed to `getItems` as an
oracle indexed by the variation's position. -/
structure Variation where
  config : List (String × Int)
deriving Repr, DecidableEq

instance : Inhabited Variation := ⟨⟨[]⟩⟩

/-- The experiment state the base class exposes: identity fields and the
ordered variation list. -/
structure Experiment where
  id : String
  feature : String
  name : String
  type : String
  variations : List Variation
deriving Repr, DecidableEq

/-- The item written by `_log_experiment_data` (lines 121-127). -/
structure TelemetrySnapshot where
  experiment_id : String
  timestamp : String
  exposures : List Int
  conversions : List Int
  theta : List ℚ
deriving Repr, DecidableEq

/-- The event dict built at lines 77-91. -/
structure ExposureEvent where
  event_type : String
  event_timestamp : Int
  user_id : String
  experiment_id : String
  feature : String
  name : String
  type : String
  variation_index : Nat
  variation_config : List (String × Int)
deriving Repr, DecidableEq

/-- The `resolve_params` dict (lines 44-52) forwarded to the chosen
variation's resolver. -/
structure ResolveParams where
  user_id : String
  product_id : Option String
  product_list : Option (List String)
  num_results : Nat
  filter_values : Option String
  context : Option String
  promotion : Option String
deriving Repr, DecidableEq

/-- The exceptions `get_items` can raise.  The code raises plain `Exception`
values; the constructors record the raise site (the spec's 7 names the first
two `InvalidArgument` and `PreconditionFailed`) and carry the message, or the
collaborator's error propagated unchanged. -/
inductive MabError where
  | invalidArgument : String → MabError
  | preconditionFailed : String → MabError
  | resolverError : String → MabError
  | trackerError : String → MabError
deriving Repr, DecidableEq

/-- `np.argmax` over the sampled theta vector (line 117): the index of the
first occurrence of the maximum value; `0` on the empty list. -/
def npArgmax : List ℚ → Nat
  | [] => 0
  | [_] => 0
  | x :: y :: ys =>
    if (y :: ys).getD (npArgmax (y :: ys)) 0 ≤ x then 0
    else npArgmax (y :: ys) + 1

theorem npArgmax_lt_length (l : List ℚ) (h : l ≠ []) : npArgmax l < l.length := by
  induction l with
  | nil => exact absurd rfl h
  | cons x xs ih =>
    cases xs with
    | nil => simp [npArgmax]
    | cons y ys =>
      rw [npArgmax]
      split
      · simp
      · have := ih (by simp)
        simpa using Nat.succ_lt_succ this

theorem npArgmax_le (l : List ℚ) (k : Nat) (hk : k < l.length) :
    l.getD k 0 ≤ l.getD (npArgmax l) 0 := by
  induction l generalizing k with
  | nil => simp at hk
  | cons x xs ih =>
    cases xs with
    | nil =>
      cases k with
      | zero => simp [npArgmax]
      | succ k' => simp at hk
    | cons y ys =>
      rw [npArgmax]
      split
      · rename_i hle
        cases k with
        | zero => simp
        | succ k' =>
          have hk' : k' < (y :: ys).length := Nat.lt_of_succ_lt_succ hk
          calc (x :: y :: ys).getD (k' + 1) 0
              = (y :: ys).getD k' 0 := List.getD_cons_succ
            _ ≤ (y :: ys).getD (npArgmax (y :: ys)) 0 := ih k' hk'
            _ ≤ x := hle
            _ = (x :: y :: ys).getD 0 0 := rfl
      · rename_i hlt
        push_neg at hlt
        cases k with
        | zero =>
          simpa using le_of_lt hlt
        | succ k' =>
          have hk' : k' < (y :: ys).length := Nat.lt_of_succ_lt_succ hk
          simpa using ih k' hk'

theorem npArgmax_first (l : List ℚ) (k : Nat) (hk : k < npArgmax l) :
    l.getD k 0 < l.getD (npArgmax l) 0 := by
  induction l generalizing k with
  | nil => simp [npArgmax] at hk
  | cons x xs ih =>
    cases xs with
    | nil => simp [npArgmax] at hk
    | cons y ys =>
      rw [npArgmax] at hk ⊢
      by_cases hc : (y :: ys).getD (npArgmax (y :: ys)) 0 ≤ x
      · rw [if_pos hc] at hk
        exact absurd hk (Nat.not_lt_zero k)
      · rw [if_neg hc] at hk ⊢
        push_neg at hc
        cases k with
        | zero => simpa using hc
        | succ k' =>
          have hk' : k' < npArgmax (y :: ys) := Nat.lt_of_succ_lt_succ hk
          simpa using ih k' hk'

deriving instance DecidableEq for Except

/-- Everything `_select_variation_index` computes for one call, the sampled
theta vector and the telemetry attempt included so the claims can talk about
them. -/
structure SelectOutcome where
  index : Nat
  exposures : List Int
  conversions : List Int
  theta : List ℚ
  snapshot : TelemetrySnapshot
  writeResult : Except String Unit
deriving Repr, DecidableEq

/-- `_select_variation_index` (lines 97-117).  The numpy Beta sampler is the
oracle `sampler i a b`: the draw for position `i` with shape parameters
`a = conversions[i] + 1`, `b = exposures[i] + 1` — one invocation per
variation, exactly as the vectorised `np.random.beta(conversions + 1,
exposures + 1)` draws one independent sample per entry.  `_log_experiment_data`
(lines 119-134) builds the snapshot from `utcnow` and hands it to the table's
`put_item` oracle; both its internal handlers and the caller's handler at
lines 111-114 swallow every failure, so the write result is only recorded,
never consulted. -/
def selectVariationIndex (ex : Experiment) (sampler : Nat → Int → Int → ℚ)
    (utcNowIso : String) (putItem : TelemetrySnapshot → Except String Unit) :
    SelectOutcome :=
  let variation_count := ex.variations.length
  let exposures := ex.variations.map (fun v => configGetInt v.config "exposures")
  let conversions := ex.variations.map (fun v => configGetInt v.config "conversions")
  let theta := (List.range variation_count).map
    (fun i => sampler i (conversions.getD i 0 + 1) (exposures.getD i 0 + 1))
  let snapshot : TelemetrySnapshot :=
    { experiment_id := ex.id, timestamp := utcNowIso,
      exposures := exposures, conversions := conversions, theta := theta }
  { index := npArgmax theta, exposures := exposures, conversions := conversions,
    theta := theta, snapshot := snapshot, writeResult := putItem snapshot }

/-- Modelled from the spec: `_increment_exposure_count` (called at line 39)
lives in the `BuiltInExperiment` base class, which is not among the sources at
hand.  Spec 3 and 8: incrementing exposures means writing back into the
variation's shared config, and after a successful selection of variation `v`
its exposure counter has increased by exactly 1; embedded as adding 1 to the
`exposures` entry of the chosen variation's config. -/
def incrementExposureCount (ex : Experiment) (idx : Nat) : Experiment :=
  let v := ex.variations.getD idx default
  let v' : Variation :=
    { config := pyDictSet v.config "exposures" (configGetInt v.config "exposures" + 1) }
  { ex with variations := ex.variations.set idx v' }

/-- The `item_experiment` stamp for one item (lines 60-68). -/
def mkStamp (ex : Experiment) (user_id : String) (variation_idx rank : Nat) :
    ItemExperimentStamp :=
  { id := ex.id, feature := ex.feature, name := ex.name, type := ex.type,
    variationIndex := variation_idx, resultRank := rank,
    correlationId := createCorrelationId user_id variation_idx rank }

/-- The injection loop at lines 56-72: starting from the given `rank`
(`get_items` starts it at 1), stamp each item in order under the
`"experiment"` key and advance the rank. -/
def stampItems (ex : Experiment) (user_id : String) (variation_idx : Nat)
    (rank : Nat) : List Item → List Item
  | [] => []
  | item :: rest =>
    pyDictSet item "experiment" (PyVal.stamp (mkStamp ex user_id variation_idx rank)) ::
      stampItems ex user_id variation_idx (rank + 1) rest

/-- The `resolve_params` dict as built at lines 44-52. -/
def mkResolveParams (user_id : String) (current_item_id : Option String)
    (item_list : Option (List String)) (num_results : Nat)
    (filter_values context promotion : Option String) : ResolveParams :=
  { user_id := user_id, product_id := current_item_id, product_list := item_list,
    num_results := num_results, filter_values := filter_values,
    context := context, promotion := promotion }

/-- The exposure event dict as built at lines 77-91. -/
def mkExposureEvent (ex : Experiment) (user_id : String) (variation_idx : Nat)
    (variation_config : List (String × Int)) (event_ts : Int) : ExposureEvent :=
  { event_type := "Experiment Exposure", event_timestamp := event_ts,
    user_id := user_id, experiment_id := ex.id, feature := ex.feature,
    name := ex.name, type := ex.type, variation_index := variation_idx,
    variation_config := variation_config }

/-- The observable side effects of one `get_items` call. -/
structure Trace where
  incremented : Option Nat
  select : Option SelectOutcome
  resolverCalls : List (Nat × ResolveParams)
  trackerEvents : List ExposureEvent
deriving Repr, DecidableEq

/-- The empty trace: the state before any side effect has happened. -/
def Trace.empty : Trace :=
  { incremented := none, select := none, resolverCalls := [], trackerEvents := [] }

/-- Result of one `get_items` call: the returned items or the raised
exception, the experiment state afterwards, and the side-effect trace. -/
structure GetItemsResult where
  result : Except MabError (List Item)
  expAfter : Experiment
  trace : Trace
deriving Repr, DecidableEq

/-- `get_items` (lines 26-95).  Oracles: `sampler` for `np.random.beta`,
`resolver i p` for `self.variations[i].resolver.get_items(**p)`, `tracker`
(`None` or `log_exposure`), `utcNowIso` for `datetime.utcnow().isoformat()`,
`nowMillis` for `datetime.now()` rendered as epoch milliseconds (the code's
`int(round(timestamp.timestamp() * 1000))` is embedded as the timestamp's
millisecond value), `putItem` for the telemetry table write.  A collaborator
oracle returning `Except.error` models that call raising; `get_items` has no
handler around the resolver call or `tracker.log_exposure`, so those errors
end the call. -/
def getItems (ex : Experiment) (user_id : String) (current_item_id : Option String)
    (item_list : Option (List String)) (num_results : Nat)
    (tracker : Option (ExposureEvent → Except String Unit))
    (filter_values : Option String) (context : Option String)
    (timestamp : Option Int) (promotion : Option String)
    (sampler : Nat → Int → Int → ℚ)
    (resolver : Nat → ResolveParams → Except String (List Item))
    (utcNowIso : String) (nowMillis : Int)
    (putItem : TelemetrySnapshot → Except String Unit) : GetItemsResult :=
  if user_id = "" then
    { result := .error (.invalidArgument "user_id is required"),
      expAfter := ex, trace := Trace.empty }
  else if ex.variations.length < 2 then
    { result := .error (.preconditionFailed
        ("Experiment " ++ ex.id ++ " does not have 2 or more variations")),
      expAfter := ex, trace := Trace.empty }
  else
    let sel := selectVariationIndex ex sampler utcNowIso putItem
    let variation_idx := sel.index
    let ex' := incrementExposureCount ex variation_idx
    let variation := ex'.variations.getD variation_idx default
    let resolve_params := mkResolveParams user_id current_item_id item_list
      num_results filter_values context promotion
    let baseTrace : Trace :=
      { incremented := some variation_idx, select := some sel,
        resolverCalls := [(variation_idx, resolve_params)], trackerEvents := [] }
    match resolver variation_idx resolve_params with
    | .error e =>
      { result := .error (.resolverError e), expAfter := ex', trace := baseTrace }
    | .ok items =>
      let annotated := stampItems ex user_id variation_idx 1 items
      match tracker with
      | none =>
        { result := .ok annotated, expAfter := ex', trace := baseTrace }
      | some log_exposure =>
        let event := mkExposureEvent ex user_id variation_idx variation.config
          (timestamp.getD nowMillis)
        match log_exposure event with
        | .error e =>
          { result := .error (.trackerError e), expAfter := ex',
            trace := { baseTrace with trackerEvents := [event] } }
        | .ok _ =>
          { result := .ok annotated, expAfter := ex',
            trace := { baseTrace with trackerEvents := [event] } }

theorem pyDictGet_pyDictSet_self {α : Type} (d : List (String × α)) (k : String) (v : α) :
    pyDictGet (pyDictSet d k v) k = some v := by
  induction d with
  | nil => simp [pyDictSet, pyDictGet]
  | cons p rest ih =>
    obtain ⟨k', v'⟩ := p
    by_cases h : k' = k
    · subst h
      simp [pyDictSet, pyDictGet]
    · simp [pyDictSet, pyDictGet, h, ih]

theorem pyDictGet_pyDictSet_ne {α : Type} (d : List (String × α)) (k k₁ : String) (v : α)
    (hne : k₁ ≠ k) : pyDictGet (pyDictSet d k v) k₁ = pyDictGet d k₁ := by
  induction d with
  | nil =>
    simp [pyDictSet, pyDictGet, Ne.symm hne]
  | cons p rest ih =>
    obtain ⟨k', v'⟩ := p
    by_cases h : k' = k
    · subst h
      simp [pyDictSet, pyDictGet, Ne.symm hne]
    · simp only [pyDictSet, if_neg h]
      by_cases h1 : k' = k₁
      · subst h1
        simp [pyDictGet]
      · simp [pyDictGet, h1, ih]

theorem pyDictGet_mem {α : Type} (d : List (String × α)) (k : String) (v : α)
    (h : pyDictGet d k = some v) : ∃ k', (k', v) ∈ d := by
  induction d with
  | nil => simp [pyDictGet] at h
  | cons p rest ih =>
    obtain ⟨k', v'⟩ := p
    by_cases hk : k' = k
    · subst hk
      simp [pyDictGet] at h
      exact ⟨k', by simp [h]⟩
    · simp [pyDictGet, hk] at h
      obtain ⟨k₁, hk₁⟩ := ih h
      exact ⟨k₁, by simp [hk₁]⟩

theorem configGetInt_nonneg (config : List (String × Int)) (key : String)
    (h : ∀ p ∈ config, 0 ≤ p.2) : 0 ≤ configGetInt config key := by
  unfold configGetInt
  cases hg : pyDictGet config key with
  | none => simp
  | some v =>
    obtain ⟨k', hk'⟩ := pyDictGet_mem config key v hg
    simpa using h (k', v) hk'

theorem stampItems_length (ex : Experiment) (user_id : String)
    (variation_idx rank : Nat) (items : List Item) :
    (stampItems ex user_id variation_idx rank items).length = items.length := by
  induction items generalizing rank with
  | nil => rfl
  | cons item rest ih => simp [stampItems, ih]

theorem stampItems_getD (ex : Experiment) (user_id : String) (variation_idx : Nat)
    (rank : Nat) (items : List Item) (i : Nat) (hi : i < items.length) :
    (stampItems ex user_id variation_idx rank items).getD i [] =
      pyDictSet (items.getD i []) "experiment"
        (PyVal.stamp (mkStamp ex user_id variation_idx (rank + i))) := by
  induction items generalizing rank i with
  | nil => simp at hi
  | cons item rest ih =>
    cases i with
    | zero => simp [stampItems]
    | succ i' =>
      have hi' : i' < rest.length := Nat.lt_of_succ_lt_succ hi
      have h := ih (rank + 1) i' hi'
      have harg : rank + 1 + i' = rank + (i' + 1) := by omega
      rw [harg] at h
      simpa [stampItems] using h

theorem getD_map_range {α : Type} [Inhabited α] (n i : Nat) (f : Nat → α) (d : α)
    (hi : i < n) : ((List.range n).map f).getD i d = f i := by
  rw [List.getD_eq_getElem?_getD, List.getElem?_map, List.getElem?_range hi]
  rfl

theorem getD_map_vars {α : Type} (l : List Variation) (i : Nat) (f : Variation → α)
    (d : α) (hi : i < l.length) :
    (l.map f).getD i d = f (l.getD i default) := by
  rw [List.getD_eq_getElem?_getD, List.getElem?_map, List.getD_eq_getElem?_getD,
    List.getElem?_eq_getElem hi]
  rfl

/-! Concrete fixtures used by the witnesses and the counterexample: a
two-variation experiment, a sampler whose draws are `0` for variation 0 and
`1` otherwise (so variation 1 is selected), a resolver returning three items,
and tracker/telemetry oracles that succeed or fail. -/

def exW : Experiment :=
  { id := "exp1", feature := "home", name := "mab", type := "mab",
    variations := [⟨[("exposures", 10), ("conversions", 9)]⟩,
                   ⟨[("exposures", 10), ("conversions", 1)]⟩] }

def exOneW : Experiment :=
  { id := "exp1", feature := "home", name := "mab", type := "mab",
    variations := [⟨[("exposures", 10), ("conversions", 9)]⟩] }

def samplerW : Nat → Int → Int → ℚ := fun i _ _ => if i = 0 then 0 else 1

def rsW : List Item :=
  [[("id", PyVal.str "x")], [("id", PyVal.str "y")], [("id", PyVal.str "z")]]

def resolverW : Nat → ResolveParams → Except String (List Item) :=
  fun _ _ => .ok rsW

def putItemW : TelemetrySnapshot → Except String Unit := fun _ => .ok ()

def putItemFailW : TelemetrySnapshot → Except String Unit :=
  fun _ => .error "ClientError: put_item failed"

def trackerOkW : ExposureEvent → Except String Unit := fun _ => .ok ()

def trackerFailW : ExposureEvent → Except String Unit :=
  fun _ => .error "tracker down"

def resolverFailW : Nat → ResolveParams → Except String (List Item) :=
  fun _ _ => .error "resolver boom"

/-- C3: a call with an empty (absent) `user_id` fails with the
`InvalidArgument` raise (`'user_id is required'`), and a call with a
non-empty `user_id` against an experiment with fewer than 2 variations fails
with the `PreconditionFailed` raise, in both cases before any side effect:
the experiment state is unchanged and the trace is empty — no posterior
sampling, no telemetry-snapshot write, no exposure-count increment, no
resolver call.  When both violations hold at once the `user_id` check fires
first, matching the code's check order. -/
theorem C3_validation_fails_fast (ex : Experiment) (user_id : String)
    (current_item_id : Option String) (item_list : Option (List String))
    (num_results : Nat) (tracker : Option (ExposureEvent → Except String Unit))
    (filter_values context : Option String) (timestamp : Option Int)
    (promotion : Option String) (sampler : Nat → Int → Int → ℚ)
    (resolver : Nat → ResolveParams → Except String (List Item))
    (utcNowIso : String) (nowMillis : Int)
    (putItem : TelemetrySnapshot → Except String Unit) :
    (user_id = "" →
      getItems ex user_id current_item_id item_list num_results tracker
          filter_values context timestamp promotion sampler resolver utcNowIso
          nowMillis putItem =
        { result := .error (.invalidArgument "user_id is required"),
          expAfter := ex, trace := Trace.empty }) ∧
    (user_id ≠ "" → ex.variations.length < 2 →
      getItems ex user_id current_item_id item_list num_results tracker
          filter_values context timestamp promotion sampler resolver utcNowIso
          nowMillis putItem =
        { result := .error (.preconditionFailed
            ("Experiment " ++ ex.id ++ " does not have 2 or more variations")),
          expAfter := ex, trace := Trace.empty }) := by
  constructor
  · intro hu
    unfold getItems
    rw [if_pos hu]
  · intro hu hv
    unfold getItems
    rw [if_neg hu, if_pos hv]

/-- Witness for C3: the two validation failures at concrete inputs. -/
theorem C3_witness :
    getItems exW "" none none 10 none none none none none samplerW resolverW
        "t" 0 putItemW =
      { result := .error (.invalidArgument "user_id is required"),
        expAfter := exW, trace := Trace.empty } ∧
    getItems exOneW "u1" none none 10 none none none none none samplerW
        resolverW "t" 0 putItemW =
      { result := .error (.preconditionFailed
          ("Experiment " ++ exOneW.id ++ " does not have 2 or more variations")),
        expAfter := exOneW, trace := Trace.empty } :=
  ⟨(C3_validation_fails_fast exW "" none none 10 none none none none none
      samplerW resolverW "t" 0 putItemW).1 rfl,
   (C3_validation_fails_fast exOneW "u1" none none 10 none none none none none
      samplerW resolverW "t" 0 putItemW).2 (by decide) (by decide)⟩

/-- C2: `_select_variation_index` reads each variation's `exposures` and
`conversions` counts from its config (absent keys default to 0; the values,
non-negative by the config's data-model invariant, stay non-negative
integers), invokes the Beta sampler once per variation with shape parameters
`(conversions[i] + 1, exposures[i] + 1)`, and returns the argmax of the
sampled theta vector: an index in `[0, variation_count)` whose draw is
maximal, every earlier index having a strictly smaller draw
(first-index-wins tie-break). -/
theorem C2_select_variation_thompson (ex : Experiment)
    (sampler : Nat → Int → Int → ℚ) (utcNowIso : String)
    (putItem : TelemetrySnapshot → Except String Unit)
    (h2 : 2 ≤ ex.variations.length) :
    (selectVariationIndex ex sampler utcNowIso putItem).exposures =
        ex.variations.map (fun v => configGetInt v.config "exposures") ∧
    (selectVariationIndex ex sampler utcNowIso putItem).conversions =
        ex.variations.map (fun v => configGetInt v.config "conversions") ∧
    ((∀ v ∈ ex.variations, ∀ p ∈ v.config, 0 ≤ p.2) →
      (∀ x ∈ (selectVariationIndex ex sampler utcNowIso putItem).exposures, 0 ≤ x) ∧
      (∀ x ∈ (selectVariationIndex ex sampler utcNowIso putItem).conversions, 0 ≤ x)) ∧
    (selectVariationIndex ex sampler utcNowIso putItem).theta.length =
        ex.variations.length ∧
    (∀ i, i < ex.variations.length →
      (selectVariationIndex ex sampler utcNowIso putItem).theta.getD i 0 =
        sampler i
          (configGetInt (ex.variations.getD i default).config "conversions" + 1)
          (configGetInt (ex.variations.getD i default).config "exposures" + 1)) ∧
    (selectVariationIndex ex sampler utcNowIso putItem).index <
        ex.variations.length ∧
    (∀ j, j < ex.variations.length →
      (selectVariationIndex ex sampler utcNowIso putItem).theta.getD j 0 ≤
        (selectVariationIndex ex sampler utcNowIso putItem).theta.getD
          (selectVariationIndex ex sampler utcNowIso putItem).index 0) ∧
    (∀ j, j < (selectVariationIndex ex sampler utcNowIso putItem).index →
      (selectVariationIndex ex sampler utcNowIso putItem).theta.getD j 0 <
        (selectVariationIndex ex sampler utcNowIso putItem).theta.getD
          (selectVariationIndex ex sampler utcNowIso putItem).index 0) := by
  have hthlen : (selectVariationIndex ex sampler utcNowIso putItem).theta.length =
      ex.variations.length := by
    simp [selectVariationIndex]
  have hthne : (selectVariationIndex ex sampler utcNowIso putItem).theta ≠ [] := by
    intro hnil
    rw [hnil] at hthlen
    simp at hthlen
    omega
  refine ⟨rfl, rfl, ?_, hthlen, ?_, ?_, ?_, ?_⟩
  · intro hcfg
    constructor <;>
    · intro x hx
      simp only [selectVariationIndex, List.mem_map] at hx
      obtain ⟨v, hv, hvx⟩ := hx
      rw [← hvx]
      exact configGetInt_nonneg v.config _ (fun p hp => hcfg v hv p hp)
  · intro i hi
    show ((List.range ex.variations.length).map _).getD i 0 = _
    rw [getD_map_range _ _ _ _ hi]
    show sampler i
        ((ex.variations.map (fun v => configGetInt v.config "conversions")).getD i 0 + 1)
        ((ex.variations.map (fun v => configGetInt v.config "exposures")).getD i 0 + 1) = _
    rw [getD_map_vars _ _ _ _ hi, getD_map_vars _ _ _ _ hi]
  · have := npArgmax_lt_length _ hthne
    rw [hthlen] at this
    exact this
  · intro j hj
    exact npArgmax_le _ j (by rw [hthlen]; exact hj)
  · intro j hj
    exact npArgmax_first _ j hj

/-- Witness for C2: the theorem instantiated at the concrete two-variation
experiment. -/
theorem C2_witness :
    2 ≤ exW.variations.length ∧
    ((selectVariationIndex exW samplerW "t" putItemW).exposures =
        exW.variations.map (fun v => configGetInt v.config "exposures") ∧
    (selectVariationIndex exW samplerW "t" putItemW).conversions =
        exW.variations.map (fun v => configGetInt v.config "conversions") ∧
    ((∀ v ∈ exW.variations, ∀ p ∈ v.config, 0 ≤ p.2) →
      (∀ x ∈ (selectVariationIndex exW samplerW "t" putItemW).exposures, 0 ≤ x) ∧
      (∀ x ∈ (selectVariationIndex exW samplerW "t" putItemW).conversions, 0 ≤ x)) ∧
    (selectVariationIndex exW samplerW "t" putItemW).theta.length =
        exW.variations.length ∧
    (∀ i, i < exW.variations.length →
      (selectVariationIndex exW samplerW "t" putItemW).theta.getD i 0 =
        samplerW i
          (configGetInt (exW.variations.getD i default).config "conversions" + 1)
          (configGetInt (exW.variations.getD i default).config "exposures" + 1)) ∧
    (selectVariationIndex exW samplerW "t" putItemW).index <
        exW.variations.length ∧
    (∀ j, j < exW.variations.length →
      (selectVariationIndex exW samplerW "t" putItemW).theta.getD j 0 ≤
        (selectVariationIndex exW samplerW "t" putItemW).theta.getD
          (selectVariationIndex exW samplerW "t" putItemW).index 0) ∧
    (∀ j, j < (selectVariationIndex exW samplerW "t" putItemW).index →
      (selectVariationIndex exW samplerW "t" putItemW).theta.getD j 0 <
        (selectVariationIndex exW samplerW "t" putItemW).theta.getD
          (selectVariationIndex exW samplerW "t" putItemW).index 0)) :=
  ⟨by decide, C2_select_variation_thompson exW samplerW "t" putItemW (by decide)⟩

/-- C5: a failure of the telemetry-snapshot write is caught and discarded —
for any two telemetry-store oracles (one may fail, the other succeed), the
index returned by `_select_variation_index`, the `get_items` result (so it
never raises on account of the write, and the returned items are unchanged)
and the resulting experiment state are identical. -/
theorem C5_snapshot_write_isolated (ex : Experiment) (user_id : String)
    (current_item_id : Option String) (item_list : Option (List String))
    (num_results : Nat) (tracker : Option (ExposureEvent → Except String Unit))
    (filter_values context : Option String) (timestamp : Option Int)
    (promotion : Option String) (sampler : Nat → Int → Int → ℚ)
    (resolver : Nat → ResolveParams → Except String (List Item))
    (utcNowIso : String) (nowMillis : Int)
    (p1 p2 : TelemetrySnapshot → Except String Unit) :
    (selectVariationIndex ex sampler utcNowIso p1).index =
      (selectVariationIndex ex sampler utcNowIso p2).index ∧
    (getItems ex user_id current_item_id item_list num_results tracker
        filter_values context timestamp promotion sampler resolver utcNowIso
        nowMillis p1).result =
      (getItems ex user_id current_item_id item_list num_results tracker
        filter_values context timestamp promotion sampler resolver utcNowIso
        nowMillis p2).result ∧
    (getItems ex user_id current_item_id item_list num_results tracker
        filter_values context timestamp promotion sampler resolver utcNowIso
        nowMillis p1).expAfter =
      (getItems ex user_id current_item_id item_list num_results tracker
        filter_values context timestamp promotion sampler resolver utcNowIso
        nowMillis p2).expAfter := by
  refine ⟨rfl, ?_⟩
  unfold getItems
  by_cases hu : user_id = ""
  · simp only [if_pos hu]
    exact ⟨trivial, trivial⟩
  · simp only [if_neg hu]
    by_cases hv : ex.variations.length < 2
    · simp only [if_pos hv]
      exact ⟨trivial, trivial⟩
    · simp only [if_neg hv]
      have hidx : (selectVariationIndex ex sampler utcNowIso p2).index =
          (selectVariationIndex ex sampler utcNowIso p1).index := rfl
      rw [hidx]
      cases hres : resolver (selectVariationIndex ex sampler utcNowIso p1).index
          (mkResolveParams user_id current_item_id item_list num_results
            filter_values context promotion) with
      | error e => exact ⟨rfl, rfl⟩
      | ok items =>
        cases tracker with
        | none => exact ⟨rfl, rfl⟩
        | some tr =>
          dsimp only
          cases htr : tr (mkExposureEvent ex user_id
              (selectVariationIndex ex sampler utcNowIso p1).index
              ((incrementExposureCount ex
                  (selectVariationIndex ex sampler utcNowIso p1).index).variations.getD
                (selectVariationIndex ex sampler utcNowIso p1).index default).config
              (timestamp.getD nowMillis)) with
          | error e => exact ⟨rfl, rfl⟩
          | ok u => exact ⟨rfl, rfl⟩

/-- C9: when validation passes and the chosen variation's resolver raises,
`get_items` propagates the resolver's error payload unchanged (not wrapped,
not swallowed), and by then the chosen variation's exposure count has been
incremented and the telemetry-snapshot write attempted (the trace retains
the full selection outcome, whose `writeResult` is the store's response);
neither effect is rolled back. -/
theorem C9_resolver_error_propagates (ex : Experiment) (user_id : String)
    (current_item_id : Option String) (item_list : Option (List String))
    (num_results : Nat) (tracker : Option (ExposureEvent → Except String Unit))
    (filter_values context : Option String) (timestamp : Option Int)
    (promotion : Option String) (sampler : Nat → Int → Int → ℚ)
    (resolver : Nat → ResolveParams → Except String (List Item))
    (utcNowIso : String) (nowMillis : Int)
    (putItem : TelemetrySnapshot → Except String Unit)
    (hu : user_id ≠ "") (hv : 2 ≤ ex.variations.length) (e : String)
    (hres : resolver (selectVariationIndex ex sampler utcNowIso putItem).index
        (mkResolveParams user_id current_item_id item_list num_results
          filter_values context promotion) = .error e) :
    getItems ex user_id current_item_id item_list num_results tracker
        filter_values context timestamp promotion sampler resolver utcNowIso
        nowMillis putItem =
      { result := .error (.resolverError e),
        expAfter := incrementExposureCount ex
          (selectVariationIndex ex sampler utcNowIso putItem).index,
        trace :=
          { incremented :=
              some (selectVariationIndex ex sampler utcNowIso putItem).index,
            select := some (selectVariationIndex ex sampler utcNowIso putItem),
            resolverCalls :=
              [((selectVariationIndex ex sampler utcNowIso putItem).index,
                mkResolveParams user_id current_item_id item_list num_results
                  filter_values context promotion)],
            trackerEvents := [] } } := by
  have hv' : ¬ ex.variations.length < 2 := by omega
  unfold getItems
  simp only [if_neg hu, if_neg hv']
  rw [hres]

/-- Witness for C9: the resolver error surfaces unchanged at a concrete
input, with the exposure increment retained. -/
theorem C9_witness :
    ("u1" : String) ≠ "" ∧ 2 ≤ exW.variations.length ∧
    resolverFailW (selectVariationIndex exW samplerW "t" putItemW).index
        (mkResolveParams "u1" none none 10 none none none) =
      .error "resolver boom" ∧
    getItems exW "u1" none none 10 none none none none none samplerW
        resolverFailW "t" 0 putItemW =
      { result := .error (.resolverError "resolver boom"),
        expAfter := incrementExposureCount exW
          (selectVariationIndex exW samplerW "t" putItemW).index,
        trace :=
          { incremented := some (selectVariationIndex exW samplerW "t" putItemW).index,
            select := some (selectVariationIndex exW samplerW "t" putItemW),
            resolverCalls :=
              [((selectVariationIndex exW samplerW "t" putItemW).index,
                mkResolveParams "u1" none none 10 none none none)],
            trackerEvents := [] } } :=
  ⟨by decide, by decide, rfl,
   C9_resolver_error_propagates exW "u1" none none 10 none none none none none
     samplerW resolverFailW "t" 0 putItemW (by decide) (by decide)
     "resolver boom" rfl⟩

/-- C1 counterexample: at a concrete input with a tracker whose
`log_exposure` raises, `get_items` does not return the already-computed
annotated item sequence — the call ends with the tracker's error, because
the code has no handler around `tracker.log_exposure(event)` (line 93). -/
theorem C1_counterexample :
    (getItems exW "u1" none none 3 (some trackerFailW) none none none none
        samplerW resolverW "t" 0 putItemW).result =
      .error (.trackerError "tracker down") := rfl

/-- C1 amended: an exception raised by `tracker.log_exposure(event)` aborts
the request — `get_items` propagates the tracker's error instead of
returning the already-computed annotated items, the exposure-count increment
and snapshot attempt having already happened. -/
theorem C1_amended_tracker_error_aborts (ex : Experiment) (user_id : String)
    (current_item_id : Option String) (item_list : Option (List String))
    (num_results : Nat) (tr : ExposureEvent → Except String Unit)
    (filter_values context : Option String) (timestamp : Option Int)
    (promotion : Option String) (sampler : Nat → Int → Int → ℚ)
    (resolver : Nat → ResolveParams → Except String (List Item))
    (utcNowIso : String) (nowMillis : Int)
    (putItem : TelemetrySnapshot → Except String Unit)
    (hu : user_id ≠ "") (hv : 2 ≤ ex.variations.length)
    (rs : List Item) (e : String)
    (hres : resolver (selectVariationIndex ex sampler utcNowIso putItem).index
        (mkResolveParams user_id current_item_id item_list num_results
          filter_values context promotion) = .ok rs)
    (htr : tr (mkExposureEvent ex user_id
        (selectVariationIndex ex sampler utcNowIso putItem).index
        ((incrementExposureCount ex
            (selectVariationIndex ex sampler utcNowIso putItem).index).variations.getD
          (selectVariationIndex ex sampler utcNowIso putItem).index default).config
        (timestamp.getD nowMillis)) = .error e) :
    getItems ex user_id current_item_id item_list num_results (some tr)
        filter_values context timestamp promotion sampler resolver utcNowIso
        nowMillis putItem =
      { result := .error (.trackerError e),
        expAfter := incrementExposureCount ex
          (selectVariationIndex ex sampler utcNowIso putItem).index,
        trace :=
          { incremented :=
              some (selectVariationIndex ex sampler utcNowIso putItem).index,
            select := some (selectVariationIndex ex sampler utcNowIso putItem),
            resolverCalls :=
              [((selectVariationIndex ex sampler utcNowIso putItem).index,
                mkResolveParams user_id current_item_id item_list num_results
                  filter_values context promotion)],
            trackerEvents :=
              [mkExposureEvent ex user_id
                (selectVariationIndex ex sampler utcNowIso putItem).index
                ((incrementExposureCount ex
                    (selectVariationIndex ex sampler utcNowIso putItem).index).variations.getD
                  (selectVariationIndex ex sampler utcNowIso putItem).index default).config
                (timestamp.getD nowMillis)] } } := by
  have hv' : ¬ ex.variations.length < 2 := by omega
  unfold getItems
  simp only [if_neg hu, if_neg hv']
  rw [hres]
  dsimp only
  rw [htr]

/-- Witness for C1's amended claim: the tracker failure at a concrete input
aborts the call with the tracker's error. -/
theorem C1_witness :
    ("u1" : String) ≠ "" ∧ 2 ≤ exW.variations.length ∧
    resolverW (selectVariationIndex exW samplerW "t" putItemW).index
        (mkResolveParams "u1" none none 3 none none none) = .ok rsW ∧
    trackerFailW (mkExposureEvent exW "u1"
        (selectVariationIndex exW samplerW "t" putItemW).index
        ((incrementExposureCount exW
            (selectVariationIndex exW samplerW "t" putItemW).index).variations.getD
          (selectVariationIndex exW samplerW "t" putItemW).index default).config
        ((none : Option Int).getD 0)) = .error "tracker down" ∧
    getItems exW "u1" none none 3 (some trackerFailW) none none none none
        samplerW resolverW "t" 0 putItemW =
      { result := .error (.trackerError "tracker down"),
        expAfter := incrementExposureCount exW
          (selectVariationIndex exW samplerW "t" putItemW).index,
        trace :=
          { incremented := some (selectVariationIndex exW samplerW "t" putItemW).index,
            select := some (selectVariationIndex exW samplerW "t" putItemW),
            resolverCalls :=
              [((selectVariationIndex exW samplerW "t" putItemW).index,
                mkResolveParams "u1" none none 3 none none none)],
            trackerEvents :=
              [mkExposureEvent exW "u1"
                (selectVariationIndex exW samplerW "t" putItemW).index
                ((incrementExposureCount exW
                    (selectVariationIndex exW samplerW "t" putItemW).index).variations.getD
                  (selectVariationIndex exW samplerW "t" putItemW).index default).config
                ((none : Option Int).getD 0)] } } :=
  ⟨by decide, by decide, rfl, rfl,
   C1_amended_tracker_error_aborts exW "u1" none none 3 trackerFailW none none
     none none samplerW resolverW "t" 0 putItemW (by decide) (by decide)
     rsW "tracker down" rfl rfl⟩

theorem getItems_ok_items (ex : Experiment) (user_id : String)
    (current_item_id : Option String) (item_list : Option (List String))
    (num_results : Nat) (tracker : Option (ExposureEvent → Except String Unit))
    (filter_values context : Option String) (timestamp : Option Int)
    (promotion : Option String) (sampler : Nat → Int → Int → ℚ)
    (resolver : Nat → ResolveParams → Except String (List Item))
    (utcNowIso : String) (nowMillis : Int)
    (putItem : TelemetrySnapshot → Except String Unit)
    (hu : user_id ≠ "") (hv : 2 ≤ ex.variations.length)
    (rs : List Item)
    (hres : resolver (selectVariationIndex ex sampler utcNowIso putItem).index
        (mkResolveParams user_id current_item_id item_list num_results
          filter_values context promotion) = .ok rs)
    (items : List Item)
    (hok : (getItems ex user_id current_item_id item_list num_results tracker
        filter_values context timestamp promotion sampler resolver utcNowIso
        nowMillis putItem).result = .ok items) :
    items = stampItems ex user_id
      (selectVariationIndex ex sampler utcNowIso putItem).index 1 rs := by
  have hv' : ¬ ex.variations.length < 2 := by omega
  unfold getItems at hok
  simp only [if_neg hu, if_neg hv'] at hok
  rw [hres] at hok
  dsimp only at hok
  cases tracker with
  | none =>
    dsimp only at hok
    exact (Except.ok.injEq _ _).mp hok |>.symm
  | some tr =>
    dsimp only at hok
    cases htr : tr (mkExposureEvent ex user_id
        (selectVariationIndex ex sampler utcNowIso putItem).index
        ((incrementExposureCount ex
            (selectVariationIndex ex sampler utcNowIso putItem).index).variations.getD
          (selectVariationIndex ex sampler utcNowIso putItem).index default).config
        (timestamp.getD nowMillis)) with
    | error e =>
      rw [htr] at hok
      dsimp only at hok
      exact absurd hok (by simp)
    | ok u =>
      rw [htr] at hok
      dsimp only at hok
      exact (Except.ok.injEq _ _).mp hok |>.symm

/-- C6: on a successful call with a tracker, exactly one exposure event is
built — with `event_type` `"Experiment Exposure"`, `event_timestamp` the
supplied timestamp (else the current time) in epoch milliseconds, the
`user_id`, the experiment identity, the chosen variation index and that
variation's config snapshot — and handed to `tracker.log_exposure` before
the annotated items are returned. -/
theorem C6_exposure_event_shape (ex : Experiment) (user_id : String)
    (current_item_id : Option String) (item_list : Option (List String))
    (num_results : Nat) (tr : ExposureEvent → Except String Unit)
    (filter_values context : Option String) (timestamp : Option Int)
    (promotion : Option String) (sampler : Nat → Int → Int → ℚ)
    (resolver : Nat → ResolveParams → Except String (List Item))
    (utcNowIso : String) (nowMillis : Int)
    (putItem : TelemetrySnapshot → Except String Unit)
    (hu : user_id ≠ "") (hv : 2 ≤ ex.variations.length) (rs : List Item)
    (hres : resolver (selectVariationIndex ex sampler utcNowIso putItem).index
        (mkResolveParams user_id current_item_id item_list num_results
          filter_values context promotion) = .ok rs)
    (htr : tr (mkExposureEvent ex user_id
        (selectVariationIndex ex sampler utcNowIso putItem).index
        ((incrementExposureCount ex
            (selectVariationIndex ex sampler utcNowIso putItem).index).variations.getD
          (selectVariationIndex ex sampler utcNowIso putItem).index default).config
        (timestamp.getD nowMillis)) = .ok ()) :
    getItems ex user_id current_item_id item_list num_results (some tr)
        filter_values context timestamp promotion sampler resolver utcNowIso
        nowMillis putItem =
      { result := .ok (stampItems ex user_id
          (selectVariationIndex ex sampler utcNowIso putItem).index 1 rs),
        expAfter := incrementExposureCount ex
          (selectVariationIndex ex sampler utcNowIso putItem).index,
        trace :=
          { incremented :=
              some (selectVariationIndex ex sampler utcNowIso putItem).index,
            select := some (selectVariationIndex ex sampler utcNowIso putItem),
            resolverCalls :=
              [((selectVariationIndex ex sampler utcNowIso putItem).index,
                mkResolveParams user_id current_item_id item_list num_results
                  filter_values context promotion)],
            trackerEvents :=
              [{ event_type := "Experiment Exposure",
                 event_timestamp := timestamp.getD nowMillis,
                 user_id := user_id, experiment_id := ex.id,
                 feature := ex.feature, name := ex.name, type := ex.type,
                 variation_index :=
                   (selectVariationIndex ex sampler utcNowIso putItem).index,
                 variation_config :=
                   ((incrementExposureCount ex
                       (selectVariationIndex ex sampler utcNowIso putItem).index).variations.getD
                     (selectVariationIndex ex sampler utcNowIso putItem).index
                     default).config }] } } := by
  have hv' : ¬ ex.variations.length < 2 := by omega
  unfold getItems
  simp only [if_neg hu, if_neg hv']
  rw [hres]
  dsimp only
  rw [htr]
  rfl

/-- Witness for C6: the exposure event emitted at a concrete input, with a
supplied timestamp of 1700000000000 ms. -/
theorem C6_witness :
    ("u1" : String) ≠ "" ∧ 2 ≤ exW.variations.length ∧
    resolverW (selectVariationIndex exW samplerW "t" putItemW).index
        (mkResolveParams "u1" none none 3 none none none) = .ok rsW ∧
    trackerOkW (mkExposureEvent exW "u1"
        (selectVariationIndex exW samplerW "t" putItemW).index
        ((incrementExposureCount exW
            (selectVariationIndex exW samplerW "t" putItemW).index).variations.getD
          (selectVariationIndex exW samplerW "t" putItemW).index default).config
        ((some 1700000000000 : Option Int).getD 7)) = .ok () ∧
    getItems exW "u1" none none 3 (some trackerOkW) none none
        (some 1700000000000) none samplerW resolverW "t" 7 putItemW =
      { result := .ok (stampItems exW "u1"
          (selectVariationIndex exW samplerW "t" putItemW).index 1 rsW),
        expAfter := incrementExposureCount exW
          (selectVariationIndex exW samplerW "t" putItemW).index,
        trace :=
          { incremented := some (selectVariationIndex exW samplerW "t" putItemW).index,
            select := some (selectVariationIndex exW samplerW "t" putItemW),
            resolverCalls :=
              [((selectVariationIndex exW samplerW "t" putItemW).index,
                mkResolveParams "u1" none none 3 none none none)],
            trackerEvents :=
              [{ event_type := "Experiment Exposure",
                 event_timestamp := (some 1700000000000 : Option Int).getD 7,
                 user_id := "u1", experiment_id := exW.id,
                 feature := exW.feature, name := exW.name, type := exW.type,
                 variation_index := (selectVariationIndex exW samplerW "t" putItemW).index,
                 variation_config :=
                   ((incrementExposureCount exW
                       (selectVariationIndex exW samplerW "t" putItemW).index).variations.getD
                     (selectVariationIndex exW samplerW "t" putItemW).index
                     default).config }] } } :=
  ⟨by decide, by decide, rfl, rfl,
   C6_exposure_event_shape exW "u1" none none 3 trackerOkW none none
     (some 1700000000000) none samplerW resolverW "t" 7 putItemW (by decide)
     (by decide) rsW rfl rfl⟩

/-- C8: with the tracker omitted, no exposure event is emitted (the trace
holds no tracker event), while the annotation and the single exposure-count
increment happen exactly as in the tracker-supplied case: for any tracker
whose `log_exposure` succeeds, both runs return the same annotated items and
leave the same post-increment experiment state, the only difference being
the emitted event. -/
theorem C8_no_tracker_frame (ex : Experiment) (user_id : String)
    (current_item_id : Option String) (item_list : Option (List String))
    (num_results : Nat) (filter_values context : Option String)
    (timestamp : Option Int) (promotion : Option String)
    (sampler : Nat → Int → Int → ℚ)
    (resolver : Nat → ResolveParams → Except String (List Item))
    (utcNowIso : String) (nowMillis : Int)
    (putItem : TelemetrySnapshot → Except String Unit)
    (hu : user_id ≠ "") (hv : 2 ≤ ex.variations.length) (rs : List Item)
    (hres : resolver (selectVariationIndex ex sampler utcNowIso putItem).index
        (mkResolveParams user_id current_item_id item_list num_results
          filter_values context promotion) = .ok rs) :
    getItems ex user_id current_item_id item_list num_results none
        filter_values context timestamp promotion sampler resolver utcNowIso
        nowMillis putItem =
      { result := .ok (stampItems ex user_id
          (selectVariationIndex ex sampler utcNowIso putItem).index 1 rs),
        expAfter := incrementExposureCount ex
          (selectVariationIndex ex sampler utcNowIso putItem).index,
        trace :=
          { incremented :=
              some (selectVariationIndex ex sampler utcNowIso putItem).index,
            select := some (selectVariationIndex ex sampler utcNowIso putItem),
            resolverCalls :=
              [((selectVariationIndex ex sampler utcNowIso putItem).index,
                mkResolveParams user_id current_item_id item_list num_results
                  filter_values context promotion)],
            trackerEvents := [] } } ∧
    (∀ tr : ExposureEvent → Except String Unit,
      tr (mkExposureEvent ex user_id
          (selectVariationIndex ex sampler utcNowIso putItem).index
          ((incrementExposureCount ex
              (selectVariationIndex ex sampler utcNowIso putItem).index).variations.getD
            (selectVariationIndex ex sampler utcNowIso putItem).index default).config
          (timestamp.getD nowMillis)) = .ok () →
      (getItems ex user_id current_item_id item_list num_results none
          filter_values context timestamp promotion sampler resolver utcNowIso
          nowMillis putItem).result =
        (getItems ex user_id current_item_id item_list num_results (some tr)
          filter_values context timestamp promotion sampler resolver utcNowIso
          nowMillis putItem).result ∧
      (getItems ex user_id current_item_id item_list num_results none
          filter_values context timestamp promotion sampler resolver utcNowIso
          nowMillis putItem).expAfter =
        (getItems ex user_id current_item_id item_list num_results (some tr)
          filter_values context timestamp promotion sampler resolver utcNowIso
          nowMillis putItem).expAfter ∧
      (getItems ex user_id current_item_id item_list num_results none
          filter_values context timestamp promotion sampler resolver utcNowIso
          nowMillis putItem).trace.incremented =
        (getItems ex user_id current_item_id item_list num_results (some tr)
          filter_values context timestamp promotion sampler resolver utcNowIso
          nowMillis putItem).trace.incremented) := by
  have hv' : ¬ ex.variations.length < 2 := by omega
  have hnone : getItems ex user_id current_item_id item_list num_results none
      filter_values context timestamp promotion sampler resolver utcNowIso
      nowMillis putItem =
    { result := .ok (stampItems ex user_id
        (selectVariationIndex ex sampler utcNowIso putItem).index 1 rs),
      expAfter := incrementExposureCount ex
        (selectVariationIndex ex sampler utcNowIso putItem).index,
      trace :=
        { incremented :=
            some (selectVariationIndex ex sampler utcNowIso putItem).index,
          select := some (selectVariationIndex ex sampler utcNowIso putItem),
          resolverCalls :=
            [((selectVariationIndex ex sampler utcNowIso putItem).index,
              mkResolveParams user_id current_item_id item_list num_results
                filter_values context promotion)],
          trackerEvents := [] } } := by
    unfold getItems
    simp only [if_neg hu, if_neg hv']
    rw [hres]
  refine ⟨hnone, ?_⟩
  intro tr htr
  have hsome : getItems ex user_id current_item_id item_list num_results
      (some tr) filter_values context timestamp promotion sampler resolver
      utcNowIso nowMillis putItem =
    { result := .ok (stampItems ex user_id
        (selectVariationIndex ex sampler utcNowIso putItem).index 1 rs),
      expAfter := incrementExposureCount ex
        (selectVariationIndex ex sampler utcNowIso putItem).index,
      trace :=
        { incremented :=
            some (selectVariationIndex ex sampler utcNowIso putItem).index,
          select := some (selectVariationIndex ex sampler utcNowIso putItem),
          resolverCalls :=
            [((selectVariationIndex ex sampler utcNowIso putItem).index,
              mkResolveParams user_id current_item_id item_list num_results
                filter_values context promotion)],
          trackerEvents :=
            [mkExposureEvent ex user_id
              (selectVariationIndex ex sampler utcNowIso putItem).index
              ((incrementExposureCount ex
                  (selectVariationIndex ex sampler utcNowIso putItem).index).variations.getD
                (selectVariationIndex ex sampler utcNowIso putItem).index
                default).config
              (timestamp.getD nowMillis)] } } := by
    unfold getItems
    simp only [if_neg hu, if_neg hv']
    rw [hres]
    dsimp only
    rw [htr]
  rw [hnone, hsome]
  exact ⟨rfl, rfl, rfl⟩

/-- Witness for C8: at a concrete input the tracker-less run emits nothing
and matches the tracker-supplied run on items, state and increment. -/
theorem C8_witness :
    ("u1" : String) ≠ "" ∧ 2 ≤ exW.variations.length ∧
    resolverW (selectVariationIndex exW samplerW "t" putItemW).index
        (mkResolveParams "u1" none none 3 none none none) = .ok rsW ∧
    (getItems exW "u1" none none 3 none none none none none samplerW resolverW
        "t" 0 putItemW).trace.trackerEvents = [] ∧
    (getItems exW "u1" none none 3 none none none none none samplerW resolverW
        "t" 0 putItemW).result =
      (getItems exW "u1" none none 3 (some trackerOkW) none none none none
        samplerW resolverW "t" 0 putItemW).result ∧
    (getItems exW "u1" none none 3 none none none none none samplerW resolverW
        "t" 0 putItemW).expAfter =
      (getItems exW "u1" none none 3 (some trackerOkW) none none none none
        samplerW resolverW "t" 0 putItemW).expAfter :=
  have h := C8_no_tracker_frame exW "u1" none none 3 none none none none
    samplerW resolverW "t" 0 putItemW (by decide) (by decide) rsW rfl
  have h2 := h.2 trackerOkW rfl
  ⟨by decide, by decide, rfl, by rw [h.1], h2.1, h2.2.1⟩

/-- C4: on a successful call, the returned items carry, in resolver output
order, an experiment stamp whose `resultRank` at position `i` is `i + 1`
(so ranks form the contiguous sequence `1..n`), holding the experiment's
id, feature, name and type, the chosen variation index, and a correlation
id derived from `(user_id, variation_index, rank)`; correlation ids are
pairwise distinct within the response. -/
theorem C4_rank_and_correlation (ex : Experiment) (user_id : String)
    (current_item_id : Option String) (item_list : Option (List String))
    (num_results : Nat) (tracker : Option (ExposureEvent → Except String Unit))
    (filter_values context : Option String) (timestamp : Option Int)
    (promotion : Option String) (sampler : Nat → Int → Int → ℚ)
    (resolver : Nat → ResolveParams → Except String (List Item))
    (utcNowIso : String) (nowMillis : Int)
    (putItem : TelemetrySnapshot → Except String Unit)
    (hu : user_id ≠ "") (hv : 2 ≤ ex.variations.length) (rs : List Item)
    (hres : resolver (selectVariationIndex ex sampler utcNowIso putItem).index
        (mkResolveParams user_id current_item_id item_list num_results
          filter_values context promotion) = .ok rs)
    (items : List Item)
    (hok : (getItems ex user_id current_item_id item_list num_results tracker
        filter_values context timestamp promotion sampler resolver utcNowIso
        nowMillis putItem).result = .ok items) :
    (∀ i, i < items.length →
      pyDictGet (items.getD i []) "experiment" =
        some (PyVal.stamp (mkStamp ex user_id
          (selectVariationIndex ex sampler utcNowIso putItem).index (i + 1)))) ∧
    (∀ i, i < items.length →
      (mkStamp ex user_id
        (selectVariationIndex ex sampler utcNowIso putItem).index
        (i + 1)).resultRank = i + 1) ∧
    (∀ i j, i < items.length → j < items.length → i ≠ j →
      (mkStamp ex user_id
        (selectVariationIndex ex sampler utcNowIso putItem).index
        (i + 1)).correlationId ≠
      (mkStamp ex user_id
        (selectVariationIndex ex sampler utcNowIso putItem).index
        (j + 1)).correlationId) := by
  have hkey := getItems_ok_items ex user_id current_item_id item_list
    num_results tracker filter_values context timestamp promotion sampler
    resolver utcNowIso nowMillis putItem hu hv rs hres items hok
  have hlen : items.length = rs.length := by
    rw [hkey, stampItems_length]
  refine ⟨?_, fun i _ => rfl, ?_⟩
  · intro i hi
    rw [hkey]
    rw [stampItems_getD ex user_id _ 1 rs i (by omega)]
    rw [pyDictGet_pyDictSet_self]
    rw [Nat.add_comm 1 i]
  · intro i j _ _ hij
    simp only [mkStamp, createCorrelationId]
    intro h
    have := congrArg CorrelationId.result_rank h
    simp at this
    omega

/-- Witness for C4: the rank and correlation-id properties at a concrete
successful call returning three items. -/
theorem C4_witness :
    ("u1" : String) ≠ "" ∧ 2 ≤ exW.variations.length ∧
    resolverW (selectVariationIndex exW samplerW "t" putItemW).index
        (mkResolveParams "u1" none none 3 none none none) = .ok rsW ∧
    (getItems exW "u1" none none 3 none none none none none samplerW resolverW
        "t" 0 putItemW).result =
      .ok (stampItems exW "u1"
        (selectVariationIndex exW samplerW "t" putItemW).index 1 rsW) ∧
    ((∀ i, i < (stampItems exW "u1"
        (selectVariationIndex exW samplerW "t" putItemW).index 1 rsW).length →
      pyDictGet ((stampItems exW "u1"
          (selectVariationIndex exW samplerW "t" putItemW).index 1 rsW).getD i [])
          "experiment" =
        some (PyVal.stamp (mkStamp exW "u1"
          (selectVariationIndex exW samplerW "t" putItemW).index (i + 1)))) ∧
    (∀ i, i < (stampItems exW "u1"
        (selectVariationIndex exW samplerW "t" putItemW).index 1 rsW).length →
      (mkStamp exW "u1"
        (selectVariationIndex exW samplerW "t" putItemW).index
        (i + 1)).resultRank = i + 1) ∧
    (∀ i j, i < (stampItems exW "u1"
        (selectVariationIndex exW samplerW "t" putItemW).index 1 rsW).length →
      j < (stampItems exW "u1"
        (selectVariationIndex exW samplerW "t" putItemW).index 1 rsW).length →
      i ≠ j →
      (mkStamp exW "u1"
        (selectVariationIndex exW samplerW "t" putItemW).index
        (i + 1)).correlationId ≠
      (mkStamp exW "u1"
        (selectVariationIndex exW samplerW "t" putItemW).index
        (j + 1)).correlationId)) :=
  ⟨by decide, by decide, rfl, rfl,
   C4_rank_and_correlation exW "u1" none none 3 none none none none none
     samplerW resolverW "t" 0 putItemW (by decide) (by decide) rsW rfl
     (stampItems exW "u1" (selectVariationIndex exW samplerW "t" putItemW).index 1 rsW)
     rfl⟩

/-- C10: on a successful call, stamping is the only mutation of the
resolver's output: the returned sequence has the resolver's length and
order (the item at position `i` is derived from the resolver's item at
position `i`), each returned item maps `"experiment"` to the injected stamp
(overwriting any pre-existing `"experiment"` key), and every other key of
every item is looked up unchanged. -/
theorem C10_annotation_only_mutation (ex : Experiment) (user_id : String)
    (current_item_id : Option String) (item_list : Option (List String))
    (num_results : Nat) (tracker : Option (ExposureEvent → Except String Unit))
    (filter_values context : Option String) (timestamp : Option Int)
    (promotion : Option String) (sampler : Nat → Int → Int → ℚ)
    (resolver : Nat → ResolveParams → Except String (List Item))
    (utcNowIso : String) (nowMillis : Int)
    (putItem : TelemetrySnapshot → Except String Unit)
    (hu : user_id ≠ "") (hv : 2 ≤ ex.variations.length) (rs : List Item)
    (hres : resolver (selectVariationIndex ex sampler utcNowIso putItem).index
        (mkResolveParams user_id current_item_id item_list num_results
          filter_values context promotion) = .ok rs)
    (items : List Item)
    (hok : (getItems ex user_id current_item_id item_list num_results tracker
        filter_values context timestamp promotion sampler resolver utcNowIso
        nowMillis putItem).result = .ok items) :
    items.length = rs.length ∧
    (∀ i, i < rs.length →
      items.getD i [] = pyDictSet (rs.getD i []) "experiment"
        (PyVal.stamp (mkStamp ex user_id
          (selectVariationIndex ex sampler utcNowIso putItem).index (i + 1))) ∧
      (∀ k, k ≠ "experiment" →
        pyDictGet (items.getD i []) k = pyDictGet (rs.getD i []) k)) := by
  have hkey := getItems_ok_items ex user_id current_item_id item_list
    num_results tracker filter_values context timestamp promotion sampler
    resolver utcNowIso nowMillis putItem hu hv rs hres items hok
  have hlen : items.length = rs.length := by
    rw [hkey, stampItems_length]
  refine ⟨hlen, ?_⟩
  intro i hi
  have hgd : items.getD i [] = pyDictSet (rs.getD i []) "experiment"
      (PyVal.stamp (mkStamp ex user_id
        (selectVariationIndex ex sampler utcNowIso putItem).index (i + 1))) := by
    rw [hkey, stampItems_getD ex user_id _ 1 rs i hi, Nat.add_comm 1 i]
  refine ⟨hgd, ?_⟩
  intro k hk
  rw [hgd, pyDictGet_pyDictSet_ne _ _ _ _ hk]

/-- Witness for C10: the only-mutation property at a concrete successful
call. -/
theorem C10_witness :
    ("u1" : String) ≠ "" ∧ 2 ≤ exW.variations.length ∧
    resolverW (selectVariationIndex exW samplerW "t" putItemW).index
        (mkResolveParams "u1" none none 3 none none none) = .ok rsW ∧
    (getItems exW "u1" none none 3 none none none none none samplerW resolverW
        "t" 0 putItemW).result =
      .ok (stampItems exW "u1"
        (selectVariationIndex exW samplerW "t" putItemW).index 1 rsW) ∧
    ((stampItems exW "u1"
        (selectVariationIndex exW samplerW "t" putItemW).index 1 rsW).length =
      rsW.length ∧
    (∀ i, i < rsW.length →
      (stampItems exW "u1"
          (selectVariationIndex exW samplerW "t" putItemW).index 1 rsW).getD i [] =
        pyDictSet (rsW.getD i []) "experiment"
          (PyVal.stamp (mkStamp exW "u1"
            (selectVariationIndex exW samplerW "t" putItemW).index (i + 1))) ∧
      (∀ k, k ≠ "experiment" →
        pyDictGet ((stampItems exW "u1"
            (selectVariationIndex exW samplerW "t" putItemW).index 1 rsW).getD i []) k =
          pyDictGet (rsW.getD i []) k))) :=
  ⟨by decide, by decide, rfl, rfl,
   C10_annotation_only_mutation exW "u1" none none 3 none none none none none
     samplerW resolverW "t" 0 putItemW (by decide) (by decide) rsW rfl
     (stampItems exW "u1" (selectVariationIndex exW samplerW "t" putItemW).index 1 rsW)
     rfl⟩

end ExperimentMab
